import Mathlib

/-!
Shallow embedding of the gin-erp authentication subsystem
(auth use-case, user / refresh-token / OTP / rate-limiter repositories,
JWT utility and phone validators), together with theorems settling the
specification claims.

Conventions of the embedding:
* machine time is a natural number of seconds (`time.Time` values are
  compared only with `After`/`Before`, which become `<` on `Nat`);
* each Mongo/Redis collection is an in-memory list, with the unique
  indexes of `CreateIndexes` reflected in the `create` operations;
* a JWT is kept in structured form (claims, algorithm tag, signature);
  HMAC-SHA256 is modelled by a deterministic signing function of the
  secret key and the claims, which is all the proofs rely on;
* the bcrypt collaborator (`HashPassword`/`CheckPassword`) and the
  fallible OTP generation / email dispatch collaborators are passed in
  as parameters, mirroring the interfaces of `internal/domain/auth`.
-/

deriving instance DecidableEq for Except

namespace GinErp

/-- Mongo ObjectID, kept as its 24-character hex rendering
(`primitive.ObjectID.Hex`). -/
structure ObjectID where
  hex : String
deriving DecidableEq, Repr

/-- `primitive.ObjectIDFromHex`: succeeds exactly on 24 hex characters. -/
def isHexDigit (c : Char) : Bool :=
  (decide ('0' ≤ c) && decide (c ≤ '9')) ||
  (decide ('a' ≤ c) && decide (c ≤ 'f')) ||
  (decide ('A' ≤ c) && decide (c ≤ 'F'))

def objectIDFromHex (s : String) : Option ObjectID :=
  if s.data.length = 24 && s.data.all isHexDigit then some ⟨s⟩ else none

/-- `domain.User` (entity.go). Role is a string, as in the Go code
(`type Role string`); membership in the closed enum is checked by
`isValidRole`. -/
structure User where
  id : ObjectID
  email : String
  phone : String
  password : String
  firstName : String
  lastName : String
  role : String
  isVerified : Bool
  isActive : Bool
  createdAt : Nat
  updatedAt : Nat
  lastLoginAt : Option Nat
deriving DecidableEq, Repr

/-- `domain.IsValidRole`. -/
def isValidRole (r : String) : Bool :=
  r = "admin" || r = "customer" || r = "finance_manager" || r = "manager"

/-- `utils.JWTClaims`: custom fields plus the registered claims the code
sets (exp, iat, nbf). -/
structure JWTClaims where
  userID : String
  email : String
  role : String
  exp : Nat
  iat : Nat
  nbf : Nat
deriving DecidableEq, Repr

/-- A serialized JWT: header algorithm, claims, signature.  Serialization
of a JWT is injective, so token strings are compared as these records. -/
structure SignedToken where
  alg : String
  claims : JWTClaims
  sig : String
deriving DecidableEq, Repr

/-- `utils.JWTUtil` configuration (secret, access TTL, refresh TTL in
seconds). -/
structure JWTUtil where
  secretKey : String
  accessTokenExpiration : Nat
  refreshTokenExpiration : Nat
deriving DecidableEq, Repr

/-- HMAC-SHA256 over the serialized claims, modelled as a deterministic
function of the key and the claims. -/
def macSign (key : String) (c : JWTClaims) : String :=
  key ++ "#" ++ c.userID ++ "#" ++ c.email ++ "#" ++ c.role ++ "#" ++
    toString c.exp ++ "#" ++ toString c.iat ++ "#" ++ toString c.nbf

/-- `JWTUtil.GenerateAccessToken`. -/
def generateAccessToken (j : JWTUtil) (userID : ObjectID) (email role : String)
    (now : Nat) : SignedToken :=
  let claims : JWTClaims :=
    { userID := userID.hex, email := email, role := role
      exp := now + j.accessTokenExpiration, iat := now, nbf := now }
  { alg := "HS256", claims := claims, sig := macSign j.secretKey claims }

/-- `JWTUtil.GenerateRefreshToken` (no email/role claims). -/
def generateRefreshToken (j : JWTUtil) (userID : ObjectID) (now : Nat) :
    SignedToken :=
  let claims : JWTClaims :=
    { userID := userID.hex, email := "", role := ""
      exp := now + j.refreshTokenExpiration, iat := now, nbf := now }
  { alg := "HS256", claims := claims, sig := macSign j.secretKey claims }

/-- `JWTUtil.ValidateToken`: the keyfunc accepts only the HMAC family,
`jwt.ParseWithClaims` checks the signature and (by the jwt/v5 default
validator, zero leeway) that `now < exp` and `nbf ≤ now`.  All failure
modes collapse into `none`, as the Go callers only see an error. -/
def validateToken (j : JWTUtil) (t : SignedToken) (now : Nat) :
    Option JWTClaims :=
  if (t.alg = "HS256" || t.alg = "HS384" || t.alg = "HS512") &&
      t.sig = macSign j.secretKey t.claims &&
      decide (now < t.claims.exp) && decide (t.claims.nbf ≤ now) then
    some t.claims
  else
    none

/-! ### Phone validation (`pkg/utils/validator.go`) -/

/-- Both Go functions begin by deleting every space and dash
(`strings.ReplaceAll` with `""`). -/
def stripPhone (cs : List Char) : List Char :=
  cs.filter (fun c => !(c = ' ' || c = '-'))

/-- `utils.NormalizePakistaniPhone` on the character list: strip spaces
and dashes; `03…` becomes `+92` + rest after the `0`; a bare `92…` gains
a leading `+`. -/
def normalizeChars (cs : List Char) : List Char :=
  let cs := stripPhone cs
  let cs := if cs.take 2 = ['0', '3'] then '+' :: '9' :: '2' :: cs.drop 1 else cs
  let cs := if cs.take 2 = ['9', '2'] && !(cs.take 3 = ['+', '9', '2'])
    then '+' :: cs else cs
  cs

def normalizePakistaniPhone (s : String) : String :=
  ⟨normalizeChars s.data⟩

/-- The regex `^\+923[0-9]{9}$` of `utils.ValidatePakistaniPhone`:
13 characters, beginning `+923`, the rest decimal digits. -/
def validateChars (cs : List Char) : Bool :=
  let cs := stripPhone cs
  cs.length = 13 && cs.take 4 = ['+', '9', '2', '3'] &&
    (cs.drop 4).all (fun c => decide ('0' ≤ c) && decide (c ≤ '9'))

def validatePakistaniPhone (s : String) : Bool :=
  validateChars s.data

/-! ### Error values (`internal/domain/auth`, errors file) -/

/-- The sentinel errors of the domain package, plus the raw collaborator
failures the use-case layer propagates unmapped (Mongo duplicate-key,
OTP generation, Redis store, email send). -/
inductive Err where
  | invalidCredentials
  | userAlreadyExists
  | phoneAlreadyExists
  | userNotFound
  | userNotVerified
  | userInactive
  | invalidToken
  | expiredToken
  | revokedToken
  | invalidOTP
  | otpNotFound
  | otpAlreadySent
  | invalidPhoneFormat
  | invalidRole
  | badRequest
  | duplicateKey
  | otpGenFailure
  | otpStoreFailure
  | emailSendFailure
deriving DecidableEq, Repr

def exOk {α : Type} : Except Err α → Bool
  | .ok _ => true
  | .error _ => false

/-! ### Credential store (`repository/mongodb/user_repository.go`).
Users live in a list; `FindOne` returns the first document matching the
filter, `UpdateOne` updates the first match (and matching nothing is not
an error). -/

def findByEmail (users : List User) (email : String) : Option User :=
  users.find? (fun u => decide (u.email = email))

def findByPhone (users : List User) (phone : String) : Option User :=
  users.find? (fun u => decide (u.phone = phone))

def findByID (users : List User) (id : ObjectID) : Option User :=
  users.find? (fun u => decide (u.id = id))

/-- `UserRepositoryImpl.Create`: the unique indexes on email and phone
reject a duplicate insert, remapped to `ErrUserAlreadyExists`. -/
def userCreate (users : List User) (u : User) : Except Err (List User) :=
  if users.any (fun v => decide (v.email = u.email) || decide (v.phone = u.phone)) then
    .error .userAlreadyExists
  else
    .ok (users ++ [u])

/-- `UserRepositoryImpl.UpdateVerificationStatus`: `UpdateOne` on the
email filter; sets `is_verified` and `updated_at` on the first match. -/
def updateVerificationStatus (users : List User) (email : String)
    (isVerified : Bool) (now : Nat) : List User :=
  match users with
  | [] => []
  | u :: us =>
    if u.email = email then
      { u with isVerified := isVerified, updatedAt := now } :: us
    else
      u :: updateVerificationStatus us email isVerified now

/-- `UserRepositoryImpl.UpdateLastLogin`: `UpdateOne` on the id filter. -/
def updateLastLogin (users : List User) (id : ObjectID) (now : Nat) :
    List User :=
  match users with
  | [] => []
  | u :: us =>
    if u.id = id then
      { u with lastLoginAt := some now, updatedAt := now } :: us
    else
      u :: updateLastLogin us id now

/-! ### Refresh-token store (redis/otp_repository.go file, second unit:
`RefreshTokenRepositoryImpl`).  Rows are never deleted; `token` carries a
unique index. -/

/-- `domain.RefreshToken` (entity.go). -/
structure RefreshTokenRow where
  id : ObjectID
  userID : ObjectID
  token : SignedToken
  expiresAt : Nat
  createdAt : Nat
  isRevoked : Bool
deriving DecidableEq, Repr

/-- `RefreshTokenRepositoryImpl.FindByToken` (`FindOne` on the token
filter); the `ErrInvalidToken` remap happens at the caller below. -/
def rtFindByToken (rows : List RefreshTokenRow) (t : SignedToken) :
    Option RefreshTokenRow :=
  rows.find? (fun r => decide (r.token = t))

/-- `RefreshTokenRepositoryImpl.Revoke`: `UpdateOne` sets `is_revoked`
on the first row matching the token. -/
def rtRevoke (rows : List RefreshTokenRow) (t : SignedToken) :
    List RefreshTokenRow :=
  match rows with
  | [] => []
  | r :: rs =>
    if r.token = t then { r with isRevoked := true } :: rs
    else r :: rtRevoke rs t

/-- `RefreshTokenRepositoryImpl.Create`: insert with `created_at := now`;
the unique index on `token` makes a duplicate insert fail (the raw error
is returned, not remapped). -/
def rtCreate (rows : List RefreshTokenRow) (row : RefreshTokenRow)
    (now : Nat) : Except Err (List RefreshTokenRow) :=
  if rows.any (fun r => decide (r.token = row.token)) then
    .error .duplicateKey
  else
    .ok (rows ++ [{ row with createdAt := now }])

/-- `RefreshTokenRepositoryImpl.RevokeAllForUser`: `UpdateMany` over the
non-revoked rows of one user. -/
def rtRevokeAllForUser (rows : List RefreshTokenRow) (uid : ObjectID) :
    List RefreshTokenRow :=
  rows.map (fun r =>
    if r.userID = uid && r.isRevoked = false then
      { r with isRevoked := true }
    else r)

/-! ### OTP store (`repository/redis/otp_repository.go`).
Modelled from the spec: the thin Redis client wrapper
(`pkg/database/redis`, `Set`/`Get`/`Delete`/`Exists`) is not in the
sources; per spec §4.2 `Store` unconditionally overwrites the code and
restarts its TTL, and `Get` fails when the key is absent or its TTL has
elapsed.  A key is live while `now < expiresAt`. -/

structure OTPEntry where
  code : String
  expiresAt : Nat
deriving DecidableEq, Repr

def otpStore (otps : List (String × OTPEntry)) (email code : String)
    (ttlMinutes now : Nat) : List (String × OTPEntry) :=
  (email, ⟨code, now + ttlMinutes * 60⟩) ::
    otps.filter (fun p => !decide (p.1 = email))

def otpGet (otps : List (String × OTPEntry)) (email : String) (now : Nat) :
    Option String :=
  match otps.find? (fun p => decide (p.1 = email)) with
  | some (_, e) => if now < e.expiresAt then some e.code else none
  | none => none

def otpDelete (otps : List (String × OTPEntry)) (email : String) :
    List (String × OTPEntry) :=
  otps.filter (fun p => !decide (p.1 = email))

def otpExists (otps : List (String × OTPEntry)) (email : String) (now : Nat) :
    Bool :=
  (otpGet otps email now).isSome

/-! ### Rate limiter (`RateLimiterRepositoryImpl`, unnamed repository
file).  Modelled from the spec for the missing Redis client: `INCR` on
an absent or expired key creates it at 1 with no TTL; `EXPIRE` stamps an
expiry; `GET` of an absent or expired key yields nil, which
`CheckRateLimit` reads as count 0. -/

structure RLEntry where
  count : Nat
  expiresAt : Option Nat
deriving DecidableEq, Repr

def rlAliveAt (e : RLEntry) (now : Nat) : Bool :=
  match e.expiresAt with
  | none => true
  | some t => decide (now < t)

def rlFind (rl : List (String × RLEntry)) (key : String) : Option RLEntry :=
  (rl.find? (fun p => decide (p.1 = key))).map (fun p => p.2)

/-- The live entry for a key: present and not yet expired. -/
def rlLive (rl : List (String × RLEntry)) (key : String) (now : Nat) :
    Option RLEntry :=
  match rlFind rl key with
  | some e => if rlAliveAt e now then some e else none
  | none => none

/-- The count `CheckRateLimit` reads: the live count, or 0 on Redis nil. -/
def rlCurrentCount (rl : List (String × RLEntry)) (key : String) (now : Nat) :
    Nat :=
  match rlLive rl key now with
  | some e => e.count
  | none => 0

/-- `RateLimiterRepositoryImpl.CheckRateLimit`: read-only; disallowed
exactly when `count >= limit`. -/
def checkRateLimit (rl : List (String × RLEntry)) (key : String)
    (limit now : Nat) : Bool :=
  !decide (rlCurrentCount rl key now ≥ limit)

def rlSet (rl : List (String × RLEntry)) (key : String) (e : RLEntry) :
    List (String × RLEntry) :=
  (key, e) :: rl.filter (fun p => !decide (p.1 = key))

/-- `RateLimiterRepositoryImpl.IncrementCounter`: `INCR`, then `EXPIRE`
only when the post-increment count is 1 (first hit of a fresh window). -/
def incrementCounter (rl : List (String × RLEntry)) (key : String)
    (windowSeconds now : Nat) : List (String × RLEntry) :=
  let live := rlLive rl key now
  let newCount := (match live with | some e => e.count | none => 0) + 1
  let newExp : Option Nat :=
    if newCount = 1 then some (now + windowSeconds)
    else match live with | some e => e.expiresAt | none => none
  rlSet rl key ⟨newCount, newExp⟩

def incrementAll (rl : List (String × RLEntry)) (key : String)
    (windowSeconds : Nat) (ts : List Nat) : List (String × RLEntry) :=
  ts.foldl (fun st t => incrementCounter st key windowSeconds t) rl

/-! ### Auth use case (`internal/usecase/auth_usecase.go`) -/

/-- The three stores the orchestrator mutates. -/
structure AuthState where
  users : List User
  refreshRows : List RefreshTokenRow
  otps : List (String × OTPEntry)
deriving DecidableEq, Repr

/-- `AuthUseCaseImpl` construction data: the JWT utility, the OTP
configuration, and the bcrypt comparison collaborator
(`utils.CheckPassword hash plaintext`). -/
structure AuthConfig where
  jwt : JWTUtil
  otpLength : Nat
  otpExpireMinutes : Nat
  checkPassword : String → String → Bool

structure RegisterRequest where
  email : String
  phone : String
  password : String
  firstName : String
  lastName : String
  role : String
deriving DecidableEq, Repr

structure LoginRequest where
  email : String
  password : String
deriving DecidableEq, Repr

structure VerifyOTPRequest where
  email : String
  code : String
deriving DecidableEq, Repr

/-- `domain.AuthResponse` (the `UserInfo` projection is kept as the
whole user record). -/
structure AuthResponse where
  accessToken : SignedToken
  refreshToken : SignedToken
  user : User
deriving DecidableEq, Repr

/-- `AuthUseCaseImpl.Register`.  The collaborator outcomes are explicit
parameters: `newID` the ObjectID Mongo assigns, `hashedPassword` the
bcrypt result, `otpOutcome` the `utils.GenerateOTP` result, `storeOk` /
`sendOk` whether the Redis store and the email dispatch succeed. -/
def registerUC (cfg : AuthConfig) (s : AuthState) (req : RegisterRequest)
    (newID : ObjectID) (hashedPassword : String)
    (otpOutcome : Except Err String) (storeOk sendOk : Bool) (now : Nat) :
    AuthState × Except Err User :=
  let phone := normalizePakistaniPhone req.phone
  if !validatePakistaniPhone phone then
    (s, .error .invalidPhoneFormat)
  else if !isValidRole req.role then
    (s, .error .invalidRole)
  else
    match findByEmail s.users req.email with
    | some _ => (s, .error .userAlreadyExists)
    | none =>
      match findByPhone s.users phone with
      | some _ => (s, .error .phoneAlreadyExists)
      | none =>
        let user : User :=
          { id := newID, email := req.email, phone := phone
            password := hashedPassword, firstName := req.firstName
            lastName := req.lastName, role := req.role
            isVerified := false, isActive := true
            createdAt := now, updatedAt := now, lastLoginAt := none }
        match userCreate s.users user with
        | .error e => (s, .error e)
        | .ok users1 =>
          let s1 := { s with users := users1 }
          match otpOutcome with
          | .error e => (s1, .error e)
          | .ok otp =>
            if !storeOk then (s1, .error .otpStoreFailure)
            else
              let s2 := { s1 with
                otps := otpStore s1.otps req.email otp cfg.otpExpireMinutes now }
              if !sendOk then (s2, .error .emailSendFailure)
              else (s2, .ok user)

/-- `AuthUseCaseImpl.Login`. -/
def loginUC (cfg : AuthConfig) (s : AuthState) (req : LoginRequest)
    (now : Nat) : AuthState × Except Err AuthResponse :=
  match findByEmail s.users req.email with
  | none => (s, .error .invalidCredentials)
  | some user =>
    if !cfg.checkPassword user.password req.password then
      (s, .error .invalidCredentials)
    else if !user.isVerified then
      (s, .error .userNotVerified)
    else if !user.isActive then
      (s, .error .userInactive)
    else
      let accessToken := generateAccessToken cfg.jwt user.id user.email user.role now
      let refreshToken := generateRefreshToken cfg.jwt user.id now
      let row : RefreshTokenRow :=
        { id := ⟨""⟩, userID := user.id, token := refreshToken
          expiresAt := now + cfg.jwt.refreshTokenExpiration
          createdAt := now, isRevoked := false }
      match rtCreate s.refreshRows row now with
      | .error e => (s, .error e)
      | .ok rows1 =>
        let users1 := updateLastLogin s.users user.id now
        ({ s with refreshRows := rows1, users := users1 },
          .ok { accessToken := accessToken, refreshToken := refreshToken, user := user })

/-- `AuthUseCaseImpl.VerifyOTP`. -/
def verifyOTPUC (s : AuthState) (req : VerifyOTPRequest) (now : Nat) :
    AuthState × Except Err Unit :=
  match otpGet s.otps req.email now with
  | none => (s, .error .otpNotFound)
  | some storedOTP =>
    if storedOTP ≠ req.code then
      (s, .error .invalidOTP)
    else
      let users1 := updateVerificationStatus s.users req.email true now
      let otps1 := otpDelete s.otps req.email
      ({ s with users := users1, otps := otps1 }, .ok ())

/-- `AuthUseCaseImpl.RefreshToken`. -/
def refreshTokenUC (cfg : AuthConfig) (s : AuthState) (tk : SignedToken)
    (now : Nat) : AuthState × Except Err AuthResponse :=
  match validateToken cfg.jwt tk now with
  | none => (s, .error .invalidToken)
  | some claims =>
    match rtFindByToken s.refreshRows tk with
    | none => (s, .error .invalidToken)
    | some row =>
      if row.isRevoked then (s, .error .revokedToken)
      else if decide (row.expiresAt < now) then (s, .error .expiredToken)
      else
        match objectIDFromHex claims.userID with
        | none => (s, .error .invalidToken)
        | some uid =>
          match findByID s.users uid with
          | none => (s, .error .userNotFound)
          | some user =>
            let accessToken :=
              generateAccessToken cfg.jwt user.id user.email user.role now
            let newRefreshToken := generateRefreshToken cfg.jwt user.id now
            let rows1 := rtRevoke s.refreshRows tk
            let newRow : RefreshTokenRow :=
              { id := ⟨""⟩, userID := user.id, token := newRefreshToken
                expiresAt := now + cfg.jwt.refreshTokenExpiration
                createdAt := now, isRevoked := false }
            match rtCreate rows1 newRow now with
            | .error e => ({ s with refreshRows := rows1 }, .error e)
            | .ok rows2 =>
              ({ s with refreshRows := rows2 },
                .ok { accessToken := accessToken
                      refreshToken := newRefreshToken, user := user })

/-- `AuthUseCaseImpl.ResendOTP`. -/
def resendOTPUC (cfg : AuthConfig) (s : AuthState) (email : String)
    (otpOutcome : Except Err String) (storeOk sendOk : Bool) (now : Nat) :
    AuthState × Except Err Unit :=
  match findByEmail s.users email with
  | none => (s, .error .userNotFound)
  | some user =>
    if user.isVerified then (s, .error .badRequest)
    else if otpExists s.otps email now then (s, .error .otpAlreadySent)
    else
      match otpOutcome with
      | .error e => (s, .error e)
      | .ok otp =>
        if !storeOk then (s, .error .otpStoreFailure)
        else
          let s1 := { s with
            otps := otpStore s.otps email otp cfg.otpExpireMinutes now }
          if !sendOk then (s1, .error .emailSendFailure)
          else (s1, .ok ())

/-- `AuthUseCaseImpl.GetUserByID` (read-only). -/
def getUserByIDUC (s : AuthState) (userID : String) : Except Err User :=
  match objectIDFromHex userID with
  | none => .error .userNotFound
  | some id =>
    match findByID s.users id with
    | none => .error .userNotFound
    | some u => .ok u

/-! ### Operation traces over the orchestrator -/

/-- One orchestrator call, with the inputs and collaborator outcomes it
needs; used to quantify over everything that can happen between two
points in time. -/
inductive Op where
  | register (req : RegisterRequest) (newID : ObjectID)
      (hashedPassword : String) (otpOutcome : Except Err String)
      (storeOk sendOk : Bool) (now : Nat)
  | login (req : LoginRequest) (now : Nat)
  | verifyOTP (req : VerifyOTPRequest) (now : Nat)
  | refresh (tk : SignedToken) (now : Nat)
  | resendOTP (email : String) (otpOutcome : Except Err String)
      (storeOk sendOk : Bool) (now : Nat)
  | getUserByID (userID : String)

def stepOp (cfg : AuthConfig) (s : AuthState) : Op → AuthState
  | .register req newID hp otpOutcome storeOk sendOk now =>
    (registerUC cfg s req newID hp otpOutcome storeOk sendOk now).1
  | .login req now => (loginUC cfg s req now).1
  | .verifyOTP req now => (verifyOTPUC s req now).1
  | .refresh tk now => (refreshTokenUC cfg s tk now).1
  | .resendOTP email otpOutcome storeOk sendOk now =>
    (resendOTPUC cfg s email otpOutcome storeOk sendOk now).1
  | .getUserByID _ => s

def runOps (cfg : AuthConfig) (s : AuthState) (ops : List Op) : AuthState :=
  ops.foldl (stepOp cfg) s

/-- The replay-protection invariant for a token string `tk`: a row for
`tk` exists (rows are never deleted) and the first one — the row
`FindByToken` returns — is revoked. -/
def tkSpent (rows : List RefreshTokenRow) (tk : SignedToken) : Prop :=
  ∃ r, rtFindByToken rows tk = some r ∧ r.isRevoked = true

/-! ### Concrete instances for witnesses and counterexamples -/

def cfgW : AuthConfig :=
  { jwt := { secretKey := "k", accessTokenExpiration := 900
             refreshTokenExpiration := 1000 }
    otpLength := 6, otpExpireMinutes := 5
    checkPassword := fun h p => decide (h = "h:" ++ p) }

def uidW : ObjectID := ⟨"0123456789abcdef01234567"⟩

def userW : User :=
  { id := uidW, email := "a@x.com", phone := "+923001234567"
    password := "h:Password123", firstName := "A", lastName := "B"
    role := "customer", isVerified := true, isActive := true
    createdAt := 0, updatedAt := 0, lastLoginAt := none }

/-- Unverified (but active) variant of `userW`. -/
def userU : User := { userW with isVerified := false }

/-- Verified but inactive variant of `userW`. -/
def userI : User := { userW with isActive := false }

/-- A refresh token issued to `userW` at time 0 (expires at 1000). -/
def tkW : SignedToken := generateRefreshToken cfgW.jwt uidW 0

/-- The stored row for `tkW`, exactly as a Login at time 0 persists it:
stored expiry 1000, matching the token's own exp claim. -/
def rowW : RefreshTokenRow :=
  { id := ⟨""⟩, userID := uidW, token := tkW
    expiresAt := 1000, createdAt := 0, isRevoked := false }

def sW : AuthState :=
  { users := [userW], refreshRows := [rowW], otps := [] }

/-- A stored row for `tkW` whose stored expiry (500) is earlier than the
token's own exp claim (1000). -/
def rowC2 : RefreshTokenRow :=
  { id := ⟨""⟩, userID := uidW, token := tkW
    expiresAt := 500, createdAt := 0, isRevoked := false }

def sC2 : AuthState := { users := [userW], refreshRows := [rowC2], otps := [] }

def sEmpty : AuthState := { users := [], refreshRows := [], otps := [] }

def sU : AuthState := { users := [userU], refreshRows := [], otps := [] }

def sI : AuthState := { users := [userI], refreshRows := [], otps := [] }

/-- A state with a live OTP "111111" for `b@x.com` (expires at 300) and
no user records at all. -/
def sOtp : AuthState :=
  { users := [], refreshRows := []
    otps := [("b@x.com", { code := "111111", expiresAt := 300 })] }

def reqR : RegisterRequest :=
  { email := "a@x.com", phone := "03001234567", password := "Password123"
    firstName := "A", lastName := "B", role := "customer" }

/-- The user record `registerUC cfgW sEmpty reqR uidW "h:Password123" … 0`
persists. -/
def regUserW : User :=
  { id := uidW, email := "a@x.com", phone := "+923001234567"
    password := "h:Password123", firstName := "A", lastName := "B"
    role := "customer", isVerified := false, isActive := true
    createdAt := 0, updatedAt := 0, lastLoginAt := none }

/-- The state `refreshTokenUC cfgW sW tkW 10` produces: the old row for
`tkW` revoked, a fresh row for the rotated token. -/
def sW1 : AuthState :=
  { users := [userW]
    refreshRows :=
      [{ id := ⟨""⟩, userID := uidW, token := tkW
         expiresAt := 1000, createdAt := 0, isRevoked := true },
       { id := ⟨""⟩, userID := uidW
         token := generateRefreshToken cfgW.jwt uidW 10
         expiresAt := 1010, createdAt := 10, isRevoked := false }]
    otps := [] }

/-- The response `refreshTokenUC cfgW sW tkW 10` returns. -/
def respW : AuthResponse :=
  { accessToken := generateAccessToken cfgW.jwt uidW "a@x.com" "customer" 10
    refreshToken := generateRefreshToken cfgW.jwt uidW 10
    user := userW }

/-! ## Theorems -/

/-- C7: phone normalization maps `"03001234567"` and `"+923001234567"`
to the identical canonical value `"+923001234567"`, which passes
validation, while `"+92301234567"` (one digit short) fails validation
after normalization. -/
theorem phone_normalization_cases :
    normalizePakistaniPhone "03001234567" = normalizePakistaniPhone "+923001234567" ∧
    normalizePakistaniPhone "03001234567" = "+923001234567" ∧
    validatePakistaniPhone (normalizePakistaniPhone "03001234567") = true ∧
    validatePakistaniPhone (normalizePakistaniPhone "+923001234567") = true ∧
    normalizePakistaniPhone "+92301234567" = "+92301234567" ∧
    validatePakistaniPhone (normalizePakistaniPhone "+92301234567") = false := by
  decide

/-- C3: `Login` returns the identical `invalidCredentials` error both
when no user exists with the email and when the password does not verify
against the stored hash. -/
theorem login_invalid_credentials_uniform (cfg : AuthConfig) (s : AuthState)
    (req : LoginRequest) (now : Nat)
    (h : findByEmail s.users req.email = none ∨
      ∃ u, findByEmail s.users req.email = some u ∧
        cfg.checkPassword u.password req.password = false) :
    (loginUC cfg s req now).2 = .error .invalidCredentials := by
  rcases h with hnone | ⟨u, hu, hpw⟩
  · simp [loginUC, hnone]
  · simp [loginUC, hu, hpw]

/-- Witness for C3: both the unknown-email case and the wrong-password
case produce `invalidCredentials` on concrete inputs. -/
theorem login_invalid_credentials_uniform_witness :
    (loginUC cfgW sW { email := "nobody@x.com", password := "anything" } 0).2 =
      .error .invalidCredentials ∧
    (loginUC cfgW sW { email := "a@x.com", password := "WrongPassword" } 0).2 =
      .error .invalidCredentials :=
  ⟨login_invalid_credentials_uniform cfgW sW
      { email := "nobody@x.com", password := "anything" } 0 (by decide),
    login_invalid_credentials_uniform cfgW sW
      { email := "a@x.com", password := "WrongPassword" } 0
      (Or.inr ⟨userW, by decide, by decide⟩)⟩

/-- C4: when the password verifies, an unverified user yields
`userNotVerified` regardless of `isActive`, and a verified inactive user
yields `userInactive`; the verified check precedes the active check. -/
theorem login_verified_before_active (cfg : AuthConfig) (s : AuthState)
    (req : LoginRequest) (now : Nat) (u : User)
    (hu : findByEmail s.users req.email = some u)
    (hpw : cfg.checkPassword u.password req.password = true) :
    (u.isVerified = false → (loginUC cfg s req now).2 = .error .userNotVerified) ∧
    (u.isVerified = true → u.isActive = false →
      (loginUC cfg s req now).2 = .error .userInactive) := by
  constructor
  · intro hv
    simp [loginUC, hu, hpw, hv]
  · intro hv ha
    simp [loginUC, hu, hpw, hv, ha]

/-- Witness for C4: a correct-password unverified active user is refused
with `userNotVerified`, a correct-password verified inactive user with
`userInactive`. -/
theorem login_verified_before_active_witness :
    (loginUC cfgW sU { email := "a@x.com", password := "Password123" } 0).2 =
      .error .userNotVerified ∧
    (loginUC cfgW sI { email := "a@x.com", password := "Password123" } 0).2 =
      .error .userInactive :=
  ⟨(login_verified_before_active cfgW sU
        { email := "a@x.com", password := "Password123" } 0 userU
        (by decide) (by decide)).1 (by decide),
    (login_verified_before_active cfgW sI
        { email := "a@x.com", password := "Password123" } 0 userI
        (by decide) (by decide)).2 (by decide) (by decide)⟩

/-- C9: an access token just issued validates at the same instant and
decodes to the encoded subject id, email and role (the access-token TTL
must be positive, as it is in every configuration). -/
theorem token_issue_validate_roundtrip (j : JWTUtil) (uid : ObjectID)
    (email role : String) (now : Nat) (h : 0 < j.accessTokenExpiration) :
    validateToken j (generateAccessToken j uid email role now) now =
      some { userID := uid.hex, email := email, role := role
             exp := now + j.accessTokenExpiration, iat := now, nbf := now } := by
  simp [validateToken, generateAccessToken, h]

/-- Witness for C9 at a concrete configuration. -/
theorem token_issue_validate_roundtrip_witness :
    0 < cfgW.jwt.accessTokenExpiration ∧
    validateToken cfgW.jwt (generateAccessToken cfgW.jwt uidW "a@x.com" "customer" 7) 7 =
      some { userID := "0123456789abcdef01234567", email := "a@x.com"
             role := "customer", exp := 907, iat := 7, nbf := 7 } :=
  ⟨by decide,
    token_issue_validate_roundtrip cfgW.jwt uidW "a@x.com" "customer" 7 (by decide)⟩

/-- C2 (amended): when the presented token still passes cryptographic
validation and its stored row is found, unrevoked, with stored expiry in
the past, `RefreshToken` returns `expiredToken`. -/
theorem refresh_stored_expiry_after_validation (cfg : AuthConfig)
    (s : AuthState) (tk : SignedToken) (now : Nat) (claims : JWTClaims)
    (row : RefreshTokenRow)
    (hval : validateToken cfg.jwt tk now = some claims)
    (hfind : rtFindByToken s.refreshRows tk = some row)
    (hrev : row.isRevoked = false)
    (hexp : row.expiresAt < now) :
    (refreshTokenUC cfg s tk now).2 = .error .expiredToken := by
  simp [refreshTokenUC, hval, hfind, hrev, hexp]

/-- Witness for the amended C2: at time 900 the token `tkW` (exp claim
1000) still validates, while its stored row expired at 500, so the call
returns `expiredToken`. -/
theorem refresh_stored_expiry_after_validation_witness :
    (refreshTokenUC cfgW sC2 tkW 900).2 = .error .expiredToken :=
  refresh_stored_expiry_after_validation cfgW sC2 tkW 900 tkW.claims rowC2
    (by decide) (by decide) (by decide) (by decide)

/-- Counterexample to C2 as stated: the decision is not independent of
the token's own expiry claim.  `sW` holds the row exactly as Login
persists it (stored expiry 1000, equal to the token's exp claim); at
time 2000 that row is unrevoked with its stored expiry past, yet the
call returns `invalidToken` — validation of the embedded exp claim fails
first — not `expiredToken`. -/
theorem refresh_stored_expiry_claim_false :
    rtFindByToken sW.refreshRows tkW = some rowW ∧
    rowW.isRevoked = false ∧
    rowW.expiresAt < 2000 ∧
    (refreshTokenUC cfgW sW tkW 2000).2 = .error .invalidToken ∧
    (refreshTokenUC cfgW sW tkW 2000).2 ≠ .error .expiredToken := by
  refine ⟨by decide, by decide, by decide, by decide, by decide⟩

/-- An `UpdateOne` whose filter matches no document changes nothing. -/
theorem updateVerificationStatus_no_match (users : List User) (email : String)
    (v : Bool) (now : Nat) (h : findByEmail users email = none) :
    updateVerificationStatus users email v now = users := by
  induction users with
  | nil => rfl
  | cons u us ih =>
    by_cases hx : u.email = email
    · exfalso
      simp [findByEmail, List.find?, hx] at h
    · rw [updateVerificationStatus, if_neg hx, ih]
      simpa [findByEmail, List.find?, hx] using h

/-- After `Delete`, `Get` finds nothing for that email, at any time. -/
theorem otpGet_otpDelete (otps : List (String × OTPEntry)) (email : String)
    (t : Nat) : otpGet (otpDelete otps email) email t = none := by
  induction otps with
  | nil => rfl
  | cons p ps ih =>
    by_cases hx : p.1 = email
    · simpa [otpDelete, hx] using ih
    · simpa [otpDelete, otpGet, List.find?, hx] using ih

/-- C5: a `VerifyOTP` call with a stored-but-different code returns
`invalidOTP` leaving the state (so the stored OTP) untouched, a
subsequent call with the correct code still within TTL succeeds, and a
call with no live stored code returns `otpNotFound`, a distinct error
from `invalidOTP`. -/
theorem verify_otp_mismatch_and_absence (s : AuthState)
    (req : VerifyOTPRequest) (now now₂ : Nat) :
    (∀ code, otpGet s.otps req.email now = some code → code ≠ req.code →
      verifyOTPUC s req now = (s, .error .invalidOTP) ∧
      (otpGet s.otps req.email now₂ = some code →
        (verifyOTPUC s { email := req.email, code := code } now₂).2 = .ok ())) ∧
    (otpGet s.otps req.email now = none →
      (verifyOTPUC s req now).2 = .error .otpNotFound) ∧
    Err.otpNotFound ≠ Err.invalidOTP := by
  refine ⟨fun code hget hne => ⟨by simp [verifyOTPUC, hget, hne], fun hget₂ => ?_⟩,
    fun hnone => by simp [verifyOTPUC, hnone], by decide⟩
  simp [verifyOTPUC, hget₂]

/-- Witness for C5: with OTP `"111111"` stored for `b@x.com`, presenting
`"222222"` fails with `invalidOTP` and changes nothing, after which
presenting `"111111"` (still within TTL) succeeds; on the empty store
the result is `otpNotFound`. -/
theorem verify_otp_mismatch_and_absence_witness :
    verifyOTPUC sOtp { email := "b@x.com", code := "222222" } 10 =
      (sOtp, .error .invalidOTP) ∧
    (verifyOTPUC sOtp { email := "b@x.com", code := "111111" } 20).2 = .ok () ∧
    (verifyOTPUC sEmpty { email := "b@x.com", code := "111111" } 10).2 =
      .error .otpNotFound :=
  ⟨((verify_otp_mismatch_and_absence sOtp
        { email := "b@x.com", code := "222222" } 10 20).1 "111111"
      (by decide) (by decide)).1,
    ((verify_otp_mismatch_and_absence sOtp
        { email := "b@x.com", code := "222222" } 10 20).1 "111111"
      (by decide) (by decide)).2 (by decide),
    (verify_otp_mismatch_and_absence sEmpty
        { email := "b@x.com", code := "111111" } 10 20).2.1 (by decide)⟩

/-- C10: `VerifyOTP` never checks that a user exists: with a matching
stored OTP and no user record for the email, the call succeeds (the
verification update matches zero documents without error), the user
store is untouched, and the OTP is deleted. -/
theorem verify_otp_no_user_check (s : AuthState) (req : VerifyOTPRequest)
    (now : Nat)
    (hno : findByEmail s.users req.email = none)
    (hotp : otpGet s.otps req.email now = some req.code) :
    (verifyOTPUC s req now).2 = .ok () ∧
    (verifyOTPUC s req now).1.users = s.users ∧
    ∀ t, otpGet (verifyOTPUC s req now).1.otps req.email t = none := by
  refine ⟨by simp [verifyOTPUC, hotp], ?_, fun t => ?_⟩
  · simp [verifyOTPUC, hotp, updateVerificationStatus_no_match _ _ _ _ hno]
  · simp [verifyOTPUC, hotp, otpGet_otpDelete]

/-- Witness for C10: `sOtp` stores OTP `"111111"` for `b@x.com` and has
no users at all, yet verification succeeds and deletes the OTP. -/
theorem verify_otp_no_user_check_witness :
    findByEmail sOtp.users "b@x.com" = none ∧
    otpGet sOtp.otps "b@x.com" 10 = some "111111" ∧
    (verifyOTPUC sOtp { email := "b@x.com", code := "111111" } 10).2 = .ok () ∧
    otpGet (verifyOTPUC sOtp { email := "b@x.com", code := "111111" } 10).1.otps
      "b@x.com" 10 = none :=
  ⟨by decide, by decide,
    (verify_otp_no_user_check sOtp { email := "b@x.com", code := "111111" } 10
      (by decide) (by decide)).1,
    (verify_otp_no_user_check sOtp { email := "b@x.com", code := "111111" } 10
      (by decide) (by decide)).2.2 10⟩

/-- `rlSet` makes the key map to the new entry. -/
theorem rlFind_rlSet (rl : List (String × RLEntry)) (key : String)
    (e : RLEntry) : rlFind (rlSet rl key e) key = some e := by
  simp [rlFind, rlSet, List.find?]

/-- First increment on a key with no live entry: count 1, window
anchored at `t0`. -/
theorem incrementCounter_fresh (rl : List (String × RLEntry)) (key : String)
    (window t0 : Nat) (h : rlLive rl key t0 = none) :
    rlFind (incrementCounter rl key window t0) key =
      some ⟨1, some (t0 + window)⟩ := by
  simp [incrementCounter, h, rlFind_rlSet]

/-- Increments on an entry with positive count, each before the stamped
expiry, add up without touching the expiry. -/
theorem incrementAll_loop (key : String) (window e : Nat) :
    ∀ (ts : List Nat) (rl : List (String × RLEntry)) (c : Nat),
      rlFind rl key = some ⟨c + 1, some e⟩ → (∀ t ∈ ts, t < e) →
      rlFind (incrementAll rl key window ts) key =
        some ⟨c + 1 + ts.length, some e⟩ := by
  intro ts
  induction ts with
  | nil =>
    intro rl c h _
    simpa [incrementAll] using h
  | cons t ts ih =>
    intro rl c h hin
    have hl : rlLive rl key t = some ⟨c + 1, some e⟩ := by
      simp [rlLive, h, rlAliveAt, hin t (by simp)]
    have hne : c + 1 + 1 ≠ 1 := by omega
    have hstep : rlFind (incrementCounter rl key window t) key =
        some ⟨c + 1 + 1, some e⟩ := by
      simp [incrementCounter, hl, hne, rlFind_rlSet]
    have hrest := ih (incrementCounter rl key window t) (c + 1) hstep
      (fun u hu => hin u (by simp [hu]))
    have hlen : c + 1 + 1 + ts.length = c + 1 + (t :: ts).length := by
      simp
      omega
    rw [← hlen]
    simpa [incrementAll] using hrest

/-- C8: starting from a key with no live counter, N `IncrementCounter`
calls whose later hits all land inside the window anchored at the first
hit leave a stored count of N; a `CheckRateLimit` inside that window with
`limit = N` then reports disallowed, and in general the check reports
allowed exactly when the live stored count is strictly below the limit
(the check itself only reads the counter). -/
theorem rate_limiter_check (rl : List (String × RLEntry)) (key : String)
    (window t0 tchk : Nat) (ts : List Nat)
    (h0 : rlLive rl key t0 = none)
    (hin : ∀ t ∈ ts, t < t0 + window)
    (hchk : tchk < t0 + window) :
    rlCurrentCount (incrementAll rl key window (t0 :: ts)) key tchk =
      ts.length + 1 ∧
    checkRateLimit (incrementAll rl key window (t0 :: ts)) key
      (ts.length + 1) tchk = false ∧
    ∀ limit, checkRateLimit (incrementAll rl key window (t0 :: ts)) key
      limit tchk =
      decide (rlCurrentCount (incrementAll rl key window (t0 :: ts)) key tchk
        < limit) := by
  have hbase := incrementCounter_fresh rl key window t0 h0
  have hfin := incrementAll_loop key window (t0 + window) ts
    (incrementCounter rl key window t0) 0 hbase hin
  have hfin' : rlFind (incrementAll rl key window (t0 :: ts)) key =
      some ⟨ts.length + 1, some (t0 + window)⟩ := by
    have : 0 + 1 + ts.length = ts.length + 1 := by omega
    rw [this] at hfin
    simpa [incrementAll] using hfin
  have hcount : rlCurrentCount (incrementAll rl key window (t0 :: ts)) key tchk
      = ts.length + 1 := by
    simp [rlCurrentCount, rlLive, hfin', rlAliveAt, hchk]
  refine ⟨hcount, ?_, fun limit => ?_⟩
  · simp [checkRateLimit, hcount]
  · simp only [checkRateLimit, ge_iff_le, ← Nat.not_lt, decide_not,
      Bool.not_not]

/-- Witness for C8: three increments at times 0, 1, 2 inside a 60-second
window leave count 3; the check at time 3 with limit 3 is disallowed. -/
theorem rate_limiter_check_witness :
    rlLive ([] : List (String × RLEntry)) "ip" 0 = none ∧
    rlCurrentCount (incrementAll [] "ip" 60 [0, 1, 2]) "ip" 3 = 3 ∧
    checkRateLimit (incrementAll [] "ip" 60 [0, 1, 2]) "ip" 3 3 = false :=
  ⟨by decide,
    (rate_limiter_check [] "ip" 60 0 3 [1, 2] (by decide) (by decide)
      (by decide)).1,
    (rate_limiter_check [] "ip" 60 0 3 [1, 2] (by decide) (by decide)
      (by decide)).2.1⟩

/-- With neither the email nor the phone taken, the unique indexes do
not fire and `Create` appends the user. -/
theorem userCreate_of_not_found (users : List User) (u : User)
    (he : findByEmail users u.email = none)
    (hp : findByPhone users u.phone = none) :
    userCreate users u = .ok (users ++ [u]) := by
  have he' := List.find?_eq_none.mp he
  have hp' := List.find?_eq_none.mp hp
  rw [userCreate, if_neg]
  intro hany
  obtain ⟨v, hv, hcase⟩ := List.any_eq_true.mp hany
  rcases Bool.or_eq_true_iff.mp hcase with h1 | h1
  · exact he' v hv h1
  · exact hp' v hv h1

/-- Finding by email in an extended store returns the appended user when
the email was previously absent. -/
theorem findByEmail_append_self (users : List User) (u : User)
    (email : String) (he : findByEmail users email = none)
    (hu : u.email = email) :
    findByEmail (users ++ [u]) email = some u := by
  induction users with
  | nil => simp [findByEmail, List.find?, hu]
  | cons v vs ih =>
    by_cases hx : v.email = email
    · exfalso
      simp [findByEmail, List.find?, hx] at he
    · have he' : findByEmail vs email = none := by
        simpa [findByEmail, List.find?, hx] using he
      simpa [findByEmail, List.find?, hx] using ih he'

/-- A freshly stored OTP with a positive TTL is immediately readable. -/
theorem otpGet_otpStore_self (otps : List (String × OTPEntry))
    (email code : String) (m now : Nat) (h : 0 < m) :
    otpGet (otpStore otps email code m now) email now = some code := by
  have hlt : now < now + m * 60 := by omega
  simp [otpGet, otpStore, List.find?, hlt]

/-- C6 (amended): `Register` is not atomic.  Once the validations pass
and user creation succeeds, any later failure (OTP generation, OTP
storage, OTP dispatch) surfaces as an error while the user stays
persisted, unverified and active; an OTP-generation or OTP-storage
failure leaves the OTP store untouched, but a dispatch failure leaves
the freshly stored OTP active for the email. -/
theorem register_partial_failure (cfg : AuthConfig) (s : AuthState)
    (req : RegisterRequest) (newID : ObjectID) (hashedPassword : String)
    (otpOutcome : Except Err String) (storeOk sendOk : Bool) (now : Nat)
    (hv : validatePakistaniPhone (normalizePakistaniPhone req.phone) = true)
    (hr : isValidRole req.role = true)
    (he : findByEmail s.users req.email = none)
    (hp : findByPhone s.users (normalizePakistaniPhone req.phone) = none)
    (httl : 0 < cfg.otpExpireMinutes) :
    (∀ e, otpOutcome = .error e →
      (registerUC cfg s req newID hashedPassword otpOutcome storeOk sendOk
        now).2 = .error e ∧
      (registerUC cfg s req newID hashedPassword otpOutcome storeOk sendOk
        now).1.otps = s.otps) ∧
    (∀ otp, otpOutcome = .ok otp → storeOk = false →
      (registerUC cfg s req newID hashedPassword otpOutcome storeOk sendOk
        now).2 = .error .otpStoreFailure ∧
      (registerUC cfg s req newID hashedPassword otpOutcome storeOk sendOk
        now).1.otps = s.otps) ∧
    (∀ otp, otpOutcome = .ok otp → storeOk = true → sendOk = false →
      (registerUC cfg s req newID hashedPassword otpOutcome storeOk sendOk
        now).2 = .error .emailSendFailure ∧
      otpGet (registerUC cfg s req newID hashedPassword otpOutcome storeOk
        sendOk now).1.otps req.email now = some otp) ∧
    (exOk (registerUC cfg s req newID hashedPassword otpOutcome storeOk
        sendOk now).2 = false →
      ∃ u, findByEmail (registerUC cfg s req newID hashedPassword otpOutcome
          storeOk sendOk now).1.users req.email = some u ∧
        u.isVerified = false ∧ u.isActive = true) := by
  have hcreate := userCreate_of_not_found s.users
    { id := newID, email := req.email
      phone := normalizePakistaniPhone req.phone
      password := hashedPassword, firstName := req.firstName
      lastName := req.lastName, role := req.role
      isVerified := false, isActive := true
      createdAt := now, updatedAt := now, lastLoginAt := none }
    he hp
  have hfind := findByEmail_append_self s.users
    { id := newID, email := req.email
      phone := normalizePakistaniPhone req.phone
      password := hashedPassword, firstName := req.firstName
      lastName := req.lastName, role := req.role
      isVerified := false, isActive := true
      createdAt := now, updatedAt := now, lastLoginAt := none }
    req.email he rfl
  refine ⟨fun e he' => ?_, fun otp hot hst => ?_, fun otp hot hst hsd => ?_, ?_⟩
  · subst he'
    constructor <;> simp [registerUC, hv, hr, he, hp, hcreate]
  · subst hot
    subst hst
    constructor <;> simp [registerUC, hv, hr, he, hp, hcreate]
  · subst hot
    subst hst
    subst hsd
    constructor
    · simp [registerUC, hv, hr, he, hp, hcreate]
    · simp only [registerUC, hv, hr, he, hp, hcreate, Bool.not_true,
        Bool.not_false, Bool.false_eq_true, if_false, if_true]
      exact otpGet_otpStore_self _ _ _ _ _ httl
  · intro hfail
    have husers : (registerUC cfg s req newID hashedPassword otpOutcome
        storeOk sendOk now).1.users = s.users ++
        [{ id := newID, email := req.email
           phone := normalizePakistaniPhone req.phone
           password := hashedPassword, firstName := req.firstName
           lastName := req.lastName, role := req.role
           isVerified := false, isActive := true
           createdAt := now, updatedAt := now, lastLoginAt := none }] := by
      rcases otpOutcome with e | otp <;> cases storeOk <;> cases sendOk <;>
        simp [registerUC, hv, hr, he, hp, hcreate]
    rw [husers]
    exact ⟨_, hfind, rfl, rfl⟩

/-- Witness for the amended C6: with dispatch failing after a successful
store, registration errors and the stored OTP is live. -/
theorem register_partial_failure_witness :
    (registerUC cfgW sEmpty reqR uidW "h:Password123"
        (.ok "123456") true false 0).2 = .error .emailSendFailure ∧
    otpGet (registerUC cfgW sEmpty reqR uidW "h:Password123"
        (.ok "123456") true false 0).1.otps "a@x.com" 0 = some "123456" :=
  ⟨((register_partial_failure cfgW sEmpty reqR uidW "h:Password123"
        (.ok "123456") true false 0 (by decide) (by decide)
        (by decide) (by decide) (by decide)).2.2.1 "123456" rfl rfl rfl).1,
    ((register_partial_failure cfgW sEmpty reqR uidW "h:Password123"
        (.ok "123456") true false 0 (by decide) (by decide)
        (by decide) (by decide) (by decide)).2.2.1 "123456" rfl rfl rfl).2⟩

/-- A successful `find?` is unaffected by appending rows. -/
theorem find?_append_some {α : Type} (p : α → Bool) (l₁ l₂ : List α)
    (a : α) (h : l₁.find? p = some a) : (l₁ ++ l₂).find? p = some a := by
  induction l₁ with
  | nil => cases h
  | cons x xs ih =>
    by_cases hx : p x
    · rw [List.find?_cons_of_pos _ hx] at h
      rw [List.cons_append, List.find?_cons_of_pos _ hx]
      exact h
    · rw [List.find?_cons_of_neg _ hx] at h
      rw [List.cons_append, List.find?_cons_of_neg _ hx]
      exact ih h

/-- `tkSpent` survives appending rows: `FindByToken` still returns the
same first (revoked) row. -/
theorem tkSpent_append (rows l : List RefreshTokenRow) (tk : SignedToken)
    (h : tkSpent rows tk) : tkSpent (rows ++ l) tk := by
  obtain ⟨r, hfind, hrev⟩ := h
  exact ⟨r, find?_append_some _ _ _ _ hfind, hrev⟩

/-- `rtCreate` only ever appends one row. -/
theorem rtCreate_ok (rows : List RefreshTokenRow) (row : RefreshTokenRow)
    (now : Nat) (rows' : List RefreshTokenRow)
    (h : rtCreate rows row now = .ok rows') :
    rows' = rows ++ [{ row with createdAt := now }] := by
  unfold rtCreate at h
  split at h
  · cases h
  · injection h with h1
    exact h1.symm

/-- `tkSpent` survives `Revoke` of any token: revocation never clears a
revoked flag and never changes a row's token. -/
theorem tkSpent_rtRevoke (t tk : SignedToken) :
    ∀ rows : List RefreshTokenRow,
      tkSpent rows tk → tkSpent (rtRevoke rows t) tk := by
  intro rows
  induction rows with
  | nil =>
    intro h
    obtain ⟨r, hfind, _⟩ := h
    cases hfind
  | cons x xs ih =>
    intro h
    obtain ⟨r, hfind, hrev⟩ := h
    by_cases hxk : x.token = tk
    · have hx : r = x := by
        rw [rtFindByToken, List.find?_cons_of_pos _ (by simpa using hxk)]
          at hfind
        injection hfind with h1
        exact h1.symm
      by_cases hxt : x.token = t
      · refine ⟨{ x with isRevoked := true }, ?_, rfl⟩
        rw [rtRevoke, if_pos hxt, rtFindByToken,
          List.find?_cons_of_pos _ (by simpa using hxk)]
      · refine ⟨x, ?_, by rw [← hx]; exact hrev⟩
        rw [rtRevoke, if_neg hxt, rtFindByToken,
          List.find?_cons_of_pos _ (by simpa using hxk)]
    · have hfind' : rtFindByToken xs tk = some r := by
        rw [rtFindByToken, List.find?_cons_of_neg _ (by simpa using hxk)]
          at hfind
        exact hfind
      by_cases hxt : x.token = t
      · refine ⟨r, ?_, hrev⟩
        rw [rtRevoke, if_pos hxt, rtFindByToken,
          List.find?_cons_of_neg _ (by simpa using hxk)]
        exact hfind'
      · obtain ⟨r', hfind'', hrev'⟩ := ih ⟨r, hfind', hrev⟩
        refine ⟨r', ?_, hrev'⟩
        rw [rtRevoke, if_neg hxt, rtFindByToken,
          List.find?_cons_of_neg _ (by simpa using hxk)]
        exact hfind''

/-- A successful rotation leaves the consumed token's first row
revoked. -/
theorem rtFindByToken_rtRevoke_self (rows : List RefreshTokenRow)
    (tk : SignedToken) (r : RefreshTokenRow)
    (h : rtFindByToken rows tk = some r) :
    rtFindByToken (rtRevoke rows tk) tk =
      some { r with isRevoked := true } := by
  induction rows with
  | nil => cases h
  | cons x xs ih =>
    by_cases hx : x.token = tk
    · rw [rtFindByToken, List.find?_cons_of_pos _ (by simpa using hx)] at h
      injection h with h1
      subst h1
      rw [rtRevoke, if_pos hx, rtFindByToken,
        List.find?_cons_of_pos _ (by simpa using hx)]
    · rw [rtFindByToken, List.find?_cons_of_neg _ (by simpa using hx)] at h
      rw [rtRevoke, if_neg hx, rtFindByToken,
        List.find?_cons_of_neg _ (by simpa using hx)]
      exact ih h

/-- `Register` never touches the refresh-token store. -/
theorem registerUC_refreshRows (cfg : AuthConfig) (s : AuthState)
    (req : RegisterRequest) (newID : ObjectID) (hp : String)
    (o : Except Err String) (st se : Bool) (now : Nat) :
    (registerUC cfg s req newID hp o st se now).1.refreshRows =
      s.refreshRows := by
  simp only [registerUC]
  repeat' split
  all_goals rfl

/-- `VerifyOTP` never touches the refresh-token store. -/
theorem verifyOTPUC_refreshRows (s : AuthState) (req : VerifyOTPRequest)
    (now : Nat) : (verifyOTPUC s req now).1.refreshRows = s.refreshRows := by
  simp only [verifyOTPUC]
  repeat' split
  all_goals rfl

/-- `ResendOTP` never touches the refresh-token store. -/
theorem resendOTPUC_refreshRows (cfg : AuthConfig) (s : AuthState)
    (email : String) (o : Except Err String) (st se : Bool) (now : Nat) :
    (resendOTPUC cfg s email o st se now).1.refreshRows = s.refreshRows := by
  simp only [resendOTPUC]
  repeat' split
  all_goals rfl

/-- `Login` preserves `tkSpent`: it can only append a fresh row. -/
theorem tkSpent_loginUC (cfg : AuthConfig) (s : AuthState)
    (req : LoginRequest) (now : Nat) (tk : SignedToken)
    (h : tkSpent s.refreshRows tk) :
    tkSpent (loginUC cfg s req now).1.refreshRows tk := by
  simp only [loginUC]
  repeat' split
  any_goals exact h
  next rows1 heq =>
    show tkSpent rows1 tk
    rw [rtCreate_ok _ _ _ _ heq]
    exact tkSpent_append _ _ _ h

/-- `RefreshToken` preserves `tkSpent` for every token: it only revokes
rows and appends a fresh one. -/
theorem tkSpent_refreshTokenUC (cfg : AuthConfig) (s : AuthState)
    (tk0 : SignedToken) (now : Nat) (tk : SignedToken)
    (h : tkSpent s.refreshRows tk) :
    tkSpent (refreshTokenUC cfg s tk0 now).1.refreshRows tk := by
  simp only [refreshTokenUC]
  repeat' split
  any_goals exact h
  · show tkSpent (rtRevoke s.refreshRows tk0) tk
    exact tkSpent_rtRevoke _ _ _ h
  next rows2 heq =>
    show tkSpent rows2 tk
    rw [rtCreate_ok _ _ _ _ heq]
    exact tkSpent_append _ _ _ (tkSpent_rtRevoke _ _ _ h)

/-- Every orchestrator operation preserves `tkSpent`. -/
theorem tkSpent_stepOp (cfg : AuthConfig) (s : AuthState) (op : Op)
    (tk : SignedToken) (h : tkSpent s.refreshRows tk) :
    tkSpent (stepOp cfg s op).refreshRows tk := by
  cases op with
  | register req newID hp o st se now =>
    rw [stepOp, registerUC_refreshRows]
    exact h
  | login req now => exact tkSpent_loginUC cfg s req now tk h
  | verifyOTP req now =>
    rw [stepOp, verifyOTPUC_refreshRows]
    exact h
  | refresh tk0 now => exact tkSpent_refreshTokenUC cfg s tk0 now tk h
  | resendOTP email o st se now =>
    rw [stepOp, resendOTPUC_refreshRows]
    exact h
  | getUserByID userID => exact h

/-- Any sequence of orchestrator operations preserves `tkSpent`. -/
theorem tkSpent_runOps (cfg : AuthConfig) (ops : List Op) :
    ∀ s : AuthState, ∀ tk : SignedToken, tkSpent s.refreshRows tk →
      tkSpent (runOps cfg s ops).refreshRows tk := by
  induction ops with
  | nil =>
    intro s tk h
    exact h
  | cons op ops ih =>
    intro s tk h
    rw [runOps, List.foldl_cons]
    exact ih _ _ (tkSpent_stepOp cfg s op tk h)

/-- A successful `RefreshToken` call establishes `tkSpent` for the
consumed token. -/
theorem refresh_success_spent (cfg : AuthConfig) (s : AuthState)
    (tk : SignedToken) (now : Nat) (s' : AuthState) (resp : AuthResponse)
    (h : refreshTokenUC cfg s tk now = (s', .ok resp)) :
    tkSpent s'.refreshRows tk := by
  cases hval : validateToken cfg.jwt tk now with
  | none => simp [refreshTokenUC, hval] at h
  | some claims =>
    cases hfind : rtFindByToken s.refreshRows tk with
    | none => simp [refreshTokenUC, hval, hfind] at h
    | some row =>
      by_cases hrev : row.isRevoked = true
      · simp [refreshTokenUC, hval, hfind, hrev] at h
      · by_cases hexp : row.expiresAt < now
        · simp [refreshTokenUC, hval, hfind, hrev, hexp] at h
        · cases hhex : objectIDFromHex claims.userID with
          | none => simp [refreshTokenUC, hval, hfind, hrev, hexp, hhex] at h
          | some uid =>
            cases huser : findByID s.users uid with
            | none =>
              simp [refreshTokenUC, hval, hfind, hrev, hexp, hhex, huser] at h
            | some user =>
              cases hcr : rtCreate (rtRevoke s.refreshRows tk)
                  { id := ⟨""⟩, userID := user.id
                    token := generateRefreshToken cfg.jwt user.id now
                    expiresAt := now + cfg.jwt.refreshTokenExpiration
                    createdAt := now, isRevoked := false } now with
              | error e =>
                simp [refreshTokenUC, hval, hfind, hrev, hexp, hhex, huser,
                  hcr] at h
              | ok rows2 =>
                simp only [refreshTokenUC, hval, hfind, hrev, hexp, hhex,
                  huser, hcr, if_neg, Bool.not_eq_true, decide_eq_true_eq,
                  if_false] at h
                rw [Prod.ext_iff] at h
                obtain ⟨h1, h2⟩ := h
                dsimp only at h1
                have hs' : s'.refreshRows = rows2 := by
                  rw [← h1]
                rw [hs', rtCreate_ok _ _ _ _ hcr]
                exact tkSpent_append _ _ _
                  ⟨{ row with isRevoked := true },
                    rtFindByToken_rtRevoke_self _ _ _ hfind, rfl⟩

/-- Once `tkSpent` holds, a `RefreshToken` call presenting that token
can only fail with `revokedToken` or `invalidToken`. -/
theorem tkSpent_refresh_result (cfg : AuthConfig) (s : AuthState)
    (tk : SignedToken) (now : Nat) (h : tkSpent s.refreshRows tk) :
    (refreshTokenUC cfg s tk now).2 = .error .revokedToken ∨
    (refreshTokenUC cfg s tk now).2 = .error .invalidToken := by
  obtain ⟨r, hfind, hrev⟩ := h
  cases hval : validateToken cfg.jwt tk now with
  | none =>
    right
    simp [refreshTokenUC, hval]
  | some claims =>
    left
    simp [refreshTokenUC, hval, hfind, hrev]

/-- C1: after a successful `RefreshToken` call consuming `tk`, any later
`RefreshToken` call presenting the same `tk` — no matter which
orchestrator operations ran in between or when — fails with
`revokedToken` or `invalidToken`. -/
theorem refresh_rotation_single_use (cfg : AuthConfig) (s : AuthState)
    (tk : SignedToken) (now₁ now₂ : Nat) (s₁ : AuthState)
    (resp : AuthResponse) (ops : List Op)
    (h : refreshTokenUC cfg s tk now₁ = (s₁, .ok resp)) :
    (refreshTokenUC cfg (runOps cfg s₁ ops) tk now₂).2 =
      .error .revokedToken ∨
    (refreshTokenUC cfg (runOps cfg s₁ ops) tk now₂).2 =
      .error .invalidToken :=
  tkSpent_refresh_result cfg (runOps cfg s₁ ops) tk now₂
    (tkSpent_runOps cfg ops s₁ tk (refresh_success_spent cfg s tk now₁ s₁ resp h))

/-- Witness for C1: rotating `tkW` at time 10 succeeds, after which
presenting `tkW` again at time 20 is refused. -/
theorem refresh_rotation_single_use_witness :
    refreshTokenUC cfgW sW tkW 10 = (sW1, .ok respW) ∧
    ((refreshTokenUC cfgW (runOps cfgW sW1 []) tkW 20).2 =
        .error .revokedToken ∨
      (refreshTokenUC cfgW (runOps cfgW sW1 []) tkW 20).2 =
        .error .invalidToken) :=
  ⟨by decide,
    refresh_rotation_single_use cfgW sW tkW 10 20 sW1 respW [] (by decide)⟩

/-- Counterexample to C6 as stated: when the failing later step is the
OTP dispatch, an active OTP *is* stored for the email — the call errors
and the user persists unverified and active, but the "no active OTP
stored" part of the claim is false. -/
theorem register_partial_failure_claim_false :
    (registerUC cfgW sEmpty reqR uidW "h:Password123"
        (.ok "123456") true false 0).2 = .error .emailSendFailure ∧
    findByEmail (registerUC cfgW sEmpty reqR uidW "h:Password123"
        (.ok "123456") true false 0).1.users "a@x.com" = some regUserW ∧
    regUserW.isVerified = false ∧
    regUserW.isActive = true ∧
    otpGet (registerUC cfgW sEmpty reqR uidW "h:Password123"
        (.ok "123456") true false 0).1.otps "a@x.com" 0 = some "123456" := by
  refine ⟨by decide, by decide, by decide, by decide, by decide⟩

end GinErp
